import Mathlib

/-
Verification of the swap-stepping engine of cw-uniswap-v3 (src/swap.rs,
src/tick.rs) against its natural-language specification.

The engine `swap` is embedded shallowly and faithfully from src/swap.rs:
machine integers become Nat/Int with explicit two's-complement ranges,
the `while` loop becomes a fuel-indexed recursion (`none` = fuel exhausted,
which for this engine means the loop has not terminated within the given
bound), and a Rust panic (a failed `unwrap`, or an arithmetic overflow
under the overflow-checking profile that the crate's own test suite runs
under) becomes the distinct outcome `SRes.panic`, never confused with a
typed `Result::Err`.

The collaborator modules called by the engine (tick_math, tick_bitmap,
swap_math, liquidity_math, error) are not part of the analysed sources;
they are modelled from the specification's section 6 as an environment of
abstract functions (`Env`), so that theorems about the engine quantify
over every collaborator behaviour permitted by those interface contracts,
and concrete instantiations supply executable witnesses.
-/

namespace UniswapV3

/-- Modelled from the spec: the error enumeration of the crate
(`error.rs` is not among the analysed sources).  The four precondition
constructors `SplM`, `SpuM`, `SplC`, `SpuC` are named exactly as in
src/swap.rs lines 59-70; the remaining constructors model the section-7
collaborator error kinds (liquidity-delta overflow, conversion-range
errors, bitmap-lookup errors). -/
inductive UErr where
  | SplM
  | SpuM
  | SplC
  | SpuC
  | LiquidityAddDelta
  | TickRange
  | PriceRange
  | BitmapLookup
  deriving DecidableEq

/-- Outcome of a piece of Rust code: a normal value, a typed
`Result::Err`, or an aborted process (panic).  A panic is not a value of
the `Result` type and is kept apart from `err`. -/
inductive SRes (α : Type) where
  | ok : α → SRes α
  | err : UErr → SRes α
  | panic : SRes α
  deriving DecidableEq

/-- 2 ^ 256, the size of the U256 / I256 value space. -/
def U256_SIZE : Nat := 2 ^ 256

/-- 2 ^ 255, the first value whose top bit is set when read as U256;
also the magnitude bound of I256. -/
def I256_HALF : Nat := 2 ^ 255

/-- 2 ^ 127, the magnitude bound of i128. -/
def I128_HALF : Nat := 2 ^ 127

/-- U256 addition (`step.amount_in + step.fee_amount` in swap.rs):
panics on overflow under the overflow-checking profile. -/
def u256_add (x y : Nat) : SRes Nat :=
  if x + y < U256_SIZE then .ok (x + y) else .panic

/-- `I256::from_raw`: bit-level reinterpretation of a U256 word as a
signed two's-complement I256.  No check of any kind is performed: a word
with the top bit set silently becomes a negative value. -/
def i256_from_raw (u : Nat) : Int :=
  if u < I256_HALF then (u : Int) else (u : Int) - (U256_SIZE : Int)

/-- Range check of a signed I256 intermediate: a result outside the
representable range aborts (overflow panic). -/
def i256_chk (v : Int) : SRes Int :=
  if -((I256_HALF : Nat) : Int) ≤ v ∧ v < ((I256_HALF : Nat) : Int) then .ok v else .panic

/-- I256 subtraction with the overflow-abort semantics of the `-`
operator. -/
def i256_sub (x y : Int) : SRes Int := i256_chk (x - y)

/-- I256 addition with the overflow-abort semantics of the `+`
operator. -/
def i256_add (x y : Int) : SRes Int := i256_chk (x + y)

/-- The expression `-1 * l_net` of swap.rs line 137 on an i128 value:
negation overflows (and aborts) exactly at the minimum value -2^127. -/
def i128_neg_one_mul (x : Int) : SRes Int :=
  if -((I128_HALF : Nat) : Int) ≤ -1 * x ∧ -1 * x < ((I128_HALF : Nat) : Int) then .ok (-1 * x)
  else .panic

/-- Per-boundary tick data, from src/tick.rs.  `liquidity_net` is i128,
the unsigned fields are u128 / U256 / u32 and are embedded as Nat. -/
structure Tick where
  liquidity_gross : Nat
  liquidity_net : Int
  fee_growth_outside_0_x_128 : Nat
  fee_growth_outside_1_x_128 : Nat
  tick_cumulative_outside : Nat
  seconds_per_liquidity_outside_x_128 : Nat
  seconds_outside : Nat
  -- source field name: `initialized`
  init_flag : Bool
  deriving DecidableEq

/-- The pool snapshot, from src/swap.rs (`Slot0`). -/
structure Slot0 where
  sqrt_price : Nat
  liquidity : Nat
  tick : Int
  deriving DecidableEq

/-- The swap output, from src/swap.rs (`SwapResult`). -/
structure SwapResult where
  amount0_delta : Int
  amount1_delta : Int
  sqrt_price_after : Nat
  liquidity_after : Nat
  tick_after : Int
  deriving DecidableEq

/-- The transient loop state, from src/swap.rs (`SwapState`). -/
structure SwapState where
  amount_specified_remaining : Int
  amount_calculated : Int
  sqrt_price_x96 : Nat
  tick : Int
  liquidity : Nat
  deriving DecidableEq

/-- Modelled from the spec: the section-6 collaborator interfaces and
the global constants consumed by the engine (the modules tick_math,
tick_bitmap, swap_math and liquidity_math are not among the analysed
sources).  `next_tick_in_word` is `next_initialized_tick_within_one_word`
with the caller's bitmap already applied (the engine only threads the
bitmap through); it takes the starting tick, the tick spacing and the
search direction.  `get_sqrt_ratio_at_tick`, `get_tick_at_sqrt_ratio`,
`compute_swap_step` and `add_delta` follow the interface table of the
spec.  Theorems quantifying over `Env` hold for every collaborator
behaviour; contract obligations of the spec are added as explicit
hypotheses where a claim assumes them. -/
structure Env where
  min_sqrt_ratio : Nat
  max_sqrt_ratio : Nat
  min_tick : Int
  max_tick : Int
  next_tick_in_word : Int → Int → Bool → Except UErr (Int × Bool)
  get_sqrt_ratio_at_tick : Int → Except UErr Nat
  get_tick_at_sqrt_ratio : Nat → Except UErr Int
  compute_swap_step : Nat → Nat → Nat → Int → Nat → Except UErr (Nat × Nat × Nat × Nat)
  add_delta : Nat → Int → Except UErr Nat

/-- The caller-supplied arguments of `swap` (src/swap.rs lines 48-57),
bundled: the tick map, the tick spacing, the direction, the signed
specified amount, the price limit, the pool snapshot and the fee. -/
structure SwapIn where
  ticks : Int → Option Tick
  tick_spacing : Int
  zero_for_one : Bool
  amount_specified : Int
  sqrt_price_limit : Nat
  slot0 : Slot0
  fee : Nat

/-- Clamping of the bitmap's answer to the global tick range
(src/swap.rs lines 90-94). -/
def clamp_tick (env : Env) (t : Int) : Int :=
  if t < env.min_tick then env.min_tick else if env.max_tick < t then env.max_tick else t

/-- The running-total update of one iteration (src/swap.rs lines
121-130): the new price is recorded, and the remaining / calculated
totals are moved by `I256::from_raw` reinterpretations of the step's
unsigned amounts, by exact-input or exact-output mode. -/
def update_amounts (exact_input : Bool) (s : SwapState)
    (new_price amount_in amount_out fee_amount : Nat) : SRes SwapState :=
  if exact_input then
    match u256_add amount_in fee_amount with
    | .panic => .panic
    | .err e => .err e
    | .ok spent =>
      match i256_sub s.amount_specified_remaining (i256_from_raw spent) with
      | .panic => .panic
      | .err e => .err e
      | .ok rem2 =>
        match i256_sub s.amount_calculated (i256_from_raw amount_out) with
        | .panic => .panic
        | .err e => .err e
        | .ok calc2 =>
          .ok { s with amount_specified_remaining := rem2, amount_calculated := calc2,
                       sqrt_price_x96 := new_price }
  else
    match i256_add s.amount_specified_remaining (i256_from_raw amount_out) with
    | .panic => .panic
    | .err e => .err e
    | .ok rem2 =>
      match u256_add amount_in fee_amount with
      | .panic => .panic
      | .err e => .err e
      | .ok got =>
        match i256_add s.amount_calculated (i256_from_raw got) with
        | .panic => .panic
        | .err e => .err e
        | .ok calc2 =>
          .ok { s with amount_specified_remaining := rem2, amount_calculated := calc2,
                       sqrt_price_x96 := new_price }

/-- The step's target price (src/swap.rs lines 96-107): the next tick's
price, or the caller's limit when that price would overshoot the limit
in the travel direction. -/
def swap_target (a : SwapIn) (sqrt_price_next : Nat) : Nat :=
  if (if a.zero_for_one then sqrt_price_next < a.sqrt_price_limit
      else a.sqrt_price_limit < sqrt_price_next)
  then a.sqrt_price_limit else sqrt_price_next

/-- The post-step tick handling of one iteration (src/swap.rs lines
132-148), applied to the state `s2` holding the step's new price: if the
new price equals the next tick's price exactly, cross it when it is
initialized — a missing map entry for it aborts via `unwrap`, its net
liquidity is negated when selling asset 0 (i128 arithmetic), and the
checked delta is applied — and step the current tick past the boundary;
otherwise recompute the tick from the new price if it moved at all. -/
def swap_cross (env : Env) (a : SwapIn) (inited : Bool) (tick_next : Int)
    (sqrt_price_next start_price : Nat) (s2 : SwapState) : SRes SwapState :=
  if s2.sqrt_price_x96 = sqrt_price_next then
    match (if inited then
             match a.ticks tick_next with
             | none => SRes.panic
             | some tk =>
               match (if a.zero_for_one then i128_neg_one_mul tk.liquidity_net
                      else .ok tk.liquidity_net) with
               | .panic => SRes.panic
               | .err e => SRes.err e
               | .ok l_net =>
                 match env.add_delta s2.liquidity l_net with
                 | .error e => SRes.err e
                 | .ok l2 => SRes.ok l2
           else SRes.ok s2.liquidity) with
    | .panic => .panic
    | .err e => .err e
    | .ok l2 =>
      .ok { s2 with liquidity := l2,
                    tick := if a.zero_for_one then tick_next - 1 else tick_next }
  else if s2.sqrt_price_x96 = start_price then .ok s2
  else
    match env.get_tick_at_sqrt_ratio s2.sqrt_price_x96 with
    | .error e => .err e
    | .ok t2 => .ok { s2 with tick := t2 }

/-- One iteration of the swap loop, from src/swap.rs lines 81-148.  The
bitmap is queried at `a.slot0.tick` — the literal argument of the call
on line 86 — not at the running `s.tick`.  The answer is clamped to the
global tick range and converted to a price, the step runs to that price
or to the limit, the running totals are updated, and the tick handling
of `swap_cross` finishes the iteration. -/
def swap_body (env : Env) (a : SwapIn) (exact_input : Bool) (s : SwapState) : SRes SwapState :=
  match env.next_tick_in_word a.slot0.tick a.tick_spacing a.zero_for_one with
  | .error e => .err e
  | .ok (tn0, inited) =>
    match env.get_sqrt_ratio_at_tick (clamp_tick env tn0) with
    | .error e => .err e
    | .ok sqrt_price_next =>
      match env.compute_swap_step s.sqrt_price_x96 (swap_target a sqrt_price_next)
              s.liquidity s.amount_specified_remaining a.fee with
      | .error e => .err e
      | .ok (new_price, amount_in, amount_out, fee_amount) =>
        match update_amounts exact_input s new_price amount_in amount_out fee_amount with
        | .panic => .panic
        | .err e => .err e
        | .ok s2 =>
          swap_cross env a inited (clamp_tick env tn0) sqrt_price_next s.sqrt_price_x96 s2

/-- Modelled from the spec: the loop iteration as section 4.1 step 1
prescribes it — identical to `swap_body` except that the bitmap search
starts from the loop's current tick `s.tick` (the transient state as
updated by previous iterations) instead of `a.slot0.tick`.  Declared
only to be contrasted with the source's `swap_body`. -/
def swap_body_fixed (env : Env) (a : SwapIn) (exact_input : Bool) (s : SwapState) :
    SRes SwapState :=
  match env.next_tick_in_word s.tick a.tick_spacing a.zero_for_one with
  | .error e => .err e
  | .ok (tn0, inited) =>
    match env.get_sqrt_ratio_at_tick (clamp_tick env tn0) with
    | .error e => .err e
    | .ok sqrt_price_next =>
      match env.compute_swap_step s.sqrt_price_x96 (swap_target a sqrt_price_next)
              s.liquidity s.amount_specified_remaining a.fee with
      | .error e => .err e
      | .ok (new_price, amount_in, amount_out, fee_amount) =>
        match update_amounts exact_input s new_price amount_in amount_out fee_amount with
        | .panic => .panic
        | .err e => .err e
        | .ok s2 =>
          swap_cross env a inited (clamp_tick env tn0) sqrt_price_next s.sqrt_price_x96 s2

/-- The `while` loop of src/swap.rs line 81, indexed by fuel: continue
while the remaining amount is non-zero and the price has not reached the
limit.  `none` means the bound was not enough — the loop has not
terminated within `fuel` iterations. -/
def swap_loop (env : Env) (a : SwapIn) (exact_input : Bool) :
    Nat → SwapState → Option (SRes SwapState)
  | 0, _ => none
  | Nat.succ fuel, s =>
    if s.amount_specified_remaining ≠ 0 ∧ s.sqrt_price_x96 ≠ a.sqrt_price_limit then
      match swap_body env a exact_input s with
      | .ok s2 => swap_loop env a exact_input fuel s2
      | .err e => some (.err e)
      | .panic => some .panic
    else some (.ok s)

/-- The initial transient state (src/swap.rs lines 74-80). -/
def swap_init_state (a : SwapIn) : SwapState :=
  { amount_specified_remaining := a.amount_specified
    amount_calculated := 0
    sqrt_price_x96 := a.slot0.sqrt_price
    tick := a.slot0.tick
    liquidity := a.slot0.liquidity }

/-- The precondition checks and the loop (src/swap.rs lines 58-149),
producing the final transient state.  The four checks run before any
other computation, each with its own error. -/
def swap_core (env : Env) (a : SwapIn) (fuel : Nat) : Option (SRes SwapState) :=
  if a.sqrt_price_limit ≤ env.min_sqrt_ratio then some (.err .SplM)
  else if env.max_sqrt_ratio ≤ a.sqrt_price_limit then some (.err .SpuM)
  else if a.zero_for_one then
    if a.slot0.sqrt_price ≤ a.sqrt_price_limit then some (.err .SplC)
    else swap_loop env a (decide (0 < a.amount_specified)) fuel (swap_init_state a)
  else
    if a.sqrt_price_limit ≤ a.slot0.sqrt_price then some (.err .SpuC)
    else swap_loop env a (decide (0 < a.amount_specified)) fuel (swap_init_state a)

/-- The post-loop result assembly (src/swap.rs lines 150-165): the
specified-minus-remaining difference lands in `amount0_delta` when the
direction flag equals the exact-input flag, else in `amount1_delta`,
with `amount_calculated` in the other slot. -/
def swap_assemble (a : SwapIn) (exact_input : Bool) (s : SwapState) : SRes SwapResult :=
  if a.zero_for_one = exact_input then
    match i256_sub a.amount_specified s.amount_specified_remaining with
    | .panic => .panic
    | .err e => .err e
    | .ok a0 =>
      .ok { amount0_delta := a0, amount1_delta := s.amount_calculated,
            sqrt_price_after := s.sqrt_price_x96, liquidity_after := s.liquidity,
            tick_after := s.tick }
  else
    match i256_sub a.amount_specified s.amount_specified_remaining with
    | .panic => .panic
    | .err e => .err e
    | .ok a1 =>
      .ok { amount0_delta := s.amount_calculated, amount1_delta := a1,
            sqrt_price_after := s.sqrt_price_x96, liquidity_after := s.liquidity,
            tick_after := s.tick }

/-- The full engine `swap` of src/swap.rs, fuel-indexed.  The
exact-input flag is the positivity of the specified amount (line 73). -/
def swap (env : Env) (a : SwapIn) (fuel : Nat) : Option (SRes SwapResult) :=
  match swap_core env a fuel with
  | none => none
  | some .panic => some .panic
  | some (.err e) => some (.err e)
  | some (.ok s) => some (swap_assemble a (decide (0 < a.amount_specified)) s)

/-- Modelled from the spec: the checked liquidity-delta collaborator
(`liquidity_math::add_delta`, not among the analysed sources) — checked
signed addition onto an unsigned u128 magnitude, erroring on
overflow or underflow. -/
def add_delta_spec (l : Nat) (d : Int) : Except UErr Nat :=
  if 0 ≤ (l : Int) + d ∧ (l : Int) + d < ((2 ^ 128 : Nat) : Int) then .ok ((l : Int) + d).toNat
  else .error .LiquidityAddDelta

end UniswapV3

namespace UniswapV3

/-- A tick entry with zero net liquidity, used by concrete runs. -/
def tick_zero_net : Tick :=
  { liquidity_gross := 1, liquidity_net := 0, fee_growth_outside_0_x_128 := 0,
    fee_growth_outside_1_x_128 := 0, tick_cumulative_outside := 0,
    seconds_per_liquidity_outside_x_128 := 0, seconds_outside := 0, init_flag := true }

/-- Concrete collaborator instance for the non-termination run: one
initialized tick at index 10 reported by the word search, toy monotone
tick-price conversion `1000 + t`, a swap step that moves the price all
the way to the target consuming the whole remaining amount — and, when
current price already equals the target, a zero step (zero amounts, as
the swap-step contract forces for a degenerate step). -/
def envC2 : Env :=
  { min_sqrt_ratio := 10, max_sqrt_ratio := 1000000, min_tick := -1000, max_tick := 1000,
    next_tick_in_word := fun _ _ _ => .ok (10, true),
    get_sqrt_ratio_at_tick := fun t => .ok ((1000 + t).toNat),
    get_tick_at_sqrt_ratio := fun p => .ok ((p : Int) - 1000),
    compute_swap_step := fun cur target _ rem _ =>
      if cur = target then .ok (cur, 0, 0, 0) else .ok (target, rem.toNat, 0, 0),
    add_delta := add_delta_spec }

/-- Arguments of the non-terminating swap: buy direction, exact input
100, price already at tick 10's price, limit 2000 not yet reached. -/
def argsC2 : SwapIn :=
  { ticks := fun t => if t = 10 then some tick_zero_net else none,
    tick_spacing := 1, zero_for_one := false, amount_specified := 100,
    sqrt_price_limit := 2000,
    slot0 := { sqrt_price := 1010, liquidity := 1000, tick := 0 }, fee := 0 }

/-- The state the non-terminating swap reaches after one iteration, and
then reproduces forever. -/
def sC2b : SwapState :=
  { amount_specified_remaining := 100, amount_calculated := 0, sqrt_price_x96 := 1010,
    tick := 10, liquidity := 1000 }

end UniswapV3

namespace UniswapV3

/-- Collaborator instance for the stale-query contrast: the word search
from a tick below 10 finds the initialized tick 10, and from 10 or above
finds the initialized tick 20; prices are the toy monotone `1000 + t`. -/
def envC1 : Env :=
  { min_sqrt_ratio := 10, max_sqrt_ratio := 1000000, min_tick := -1000, max_tick := 1000,
    next_tick_in_word := fun t _ _ => .ok (if t < 10 then 10 else 20, true),
    get_sqrt_ratio_at_tick := fun t => .ok ((1000 + t).toNat),
    get_tick_at_sqrt_ratio := fun p => .ok ((p : Int) - 1000),
    compute_swap_step := fun cur target _ rem _ =>
      if cur = target then .ok (cur, 0, 0, 0) else .ok (target, rem.toNat, 0, 0),
    add_delta := add_delta_spec }

/-- Arguments for the stale-query contrast: initialized ticks at 10 and
20, buy direction, exact input 100, start at tick 10's price. -/
def argsC1 : SwapIn :=
  { ticks := fun t => if t = 10 ∨ t = 20 then some tick_zero_net else none,
    tick_spacing := 1, zero_for_one := false, amount_specified := 100,
    sqrt_price_limit := 2000,
    slot0 := { sqrt_price := 1010, liquidity := 1000, tick := 0 }, fee := 0 }

/-- State of the C1 run after its first iteration: the loop's tick has
advanced to 10 while slot0 still records tick 0. -/
def sC1b : SwapState :=
  { amount_specified_remaining := 100, amount_calculated := 0, sqrt_price_x96 := 1010,
    tick := 10, liquidity := 1000 }

/-- The state the spec-prescribed iteration would produce from `sC1b`:
the search from tick 10 finds tick 20 and the swap finishes there. -/
def sC1c : SwapState :=
  { amount_specified_remaining := 0, amount_calculated := 0, sqrt_price_x96 := 1020,
    tick := 20, liquidity := 1000 }

/-- A tick entry carrying net liquidity 5. -/
def tick_net_five : Tick :=
  { liquidity_gross := 5, liquidity_net := 5, fee_growth_outside_0_x_128 := 0,
    fee_growth_outside_1_x_128 := 0, tick_cumulative_outside := 0,
    seconds_per_liquidity_outside_x_128 := 0, seconds_outside := 0, init_flag := true }

/-- Arguments for the repeated-crossing run: the same as the
non-terminating run, except that the initialized tick at 10 carries net
liquidity 5, so each re-crossing visibly adds 5. -/
def argsC5 : SwapIn :=
  { ticks := fun t => if t = 10 then some tick_net_five else none,
    tick_spacing := 1, zero_for_one := false, amount_specified := 100,
    sqrt_price_limit := 2000,
    slot0 := { sqrt_price := 1010, liquidity := 1000, tick := 0 }, fee := 0 }

/-- C5 run, state after the first crossing of tick 10. -/
def sC5b : SwapState :=
  { amount_specified_remaining := 100, amount_calculated := 0, sqrt_price_x96 := 1010,
    tick := 10, liquidity := 1005 }

/-- C5 run, state after the second crossing of the same tick 10. -/
def sC5c : SwapState :=
  { amount_specified_remaining := 100, amount_calculated := 0, sqrt_price_x96 := 1010,
    tick := 10, liquidity := 1010 }

end UniswapV3

namespace UniswapV3

/-- Well-behaved collaborator instance used by the positive witnesses:
the word search reports the uninitialized word edge -4, prices follow
the toy monotone `1000 + t`, and a step moves the price to its target
consuming the whole remaining amount. -/
def envW : Env :=
  { min_sqrt_ratio := 10, max_sqrt_ratio := 1000000, min_tick := -940, max_tick := 1000,
    next_tick_in_word := fun _ _ _ => .ok (-4, false),
    get_sqrt_ratio_at_tick := fun t => .ok ((1000 + t).toNat),
    get_tick_at_sqrt_ratio := fun p => .ok ((p : Int) - 1000),
    compute_swap_step := fun _ target _ rem _ => .ok (target, rem.toNat, 0, 0),
    add_delta := add_delta_spec }

/-- Arguments of the terminating witness run: sell direction, exact
input 5, one full step down from price 1500 to the word edge's price
996, exhausting the input. -/
def argsW : SwapIn :=
  { ticks := fun _ => some tick_zero_net,
    tick_spacing := 1, zero_for_one := true, amount_specified := 5,
    sqrt_price_limit := 900,
    slot0 := { sqrt_price := 1500, liquidity := 77, tick := 0 }, fee := 0 }

/-- Final transient state of the witness run. -/
def sW : SwapState :=
  { amount_specified_remaining := 0, amount_calculated := 0, sqrt_price_x96 := 996,
    tick := -5, liquidity := 77 }

/-- Result of the witness run. -/
def resW : SwapResult :=
  { amount0_delta := 5, amount1_delta := 0, sqrt_price_after := 996,
    liquidity_after := 77, tick_after := -5 }

/-- Precondition-violating variant: limit at or below the global
minimum price. -/
def argsV1 : SwapIn := { argsW with sqrt_price_limit := 5 }

/-- Precondition-violating variant: limit at or above the global
maximum price. -/
def argsV2 : SwapIn := { argsW with sqrt_price_limit := 1000000 }

/-- Precondition-violating variant: selling asset 0 with the limit not
strictly below the current price. -/
def argsV3 : SwapIn := { argsW with sqrt_price_limit := 1500 }

/-- Precondition-violating variant: selling asset 1 with the limit not
strictly above the current price. -/
def argsV4 : SwapIn := { argsW with zero_for_one := false, sqrt_price_limit := 1500 }

/-- Collaborator instance for the monotonicity counterexample: the word
search (selling direction, from slot0's recorded tick 0) reports the
initialized tick 0 itself — permitted, a less-than-or-equal search may
return the starting tick — whose price 1000 lies far above the actual
current price 100, because slot0's recorded tick is inconsistent with
slot0's recorded price. -/
def envC8 : Env :=
  { min_sqrt_ratio := 60, max_sqrt_ratio := 2000, min_tick := -940, max_tick := 1000,
    next_tick_in_word := fun _ _ _ => .ok (0, true),
    get_sqrt_ratio_at_tick := fun t => .ok ((1000 + t).toNat),
    get_tick_at_sqrt_ratio := fun p => .ok ((p : Int) - 1000),
    compute_swap_step := fun cur target _ rem _ =>
      if cur = target then .ok (cur, 0, 0, 0) else .ok (target, rem.toNat, 0, 0),
    add_delta := add_delta_spec }

/-- Arguments of the monotonicity counterexample: a sell swap whose
slot0 records tick 0 (price 1000) but price 100. -/
def argsC8 : SwapIn :=
  { ticks := fun t => if t = 0 then some tick_zero_net else none,
    tick_spacing := 1, zero_for_one := true, amount_specified := 5,
    sqrt_price_limit := 70,
    slot0 := { sqrt_price := 100, liquidity := 55, tick := 0 }, fee := 0 }

/-- Result of the monotonicity counterexample run: the sell swap ends
at price 1000, above its starting price 100. -/
def resC8 : SwapResult :=
  { amount0_delta := 5, amount1_delta := 0, sqrt_price_after := 1000,
    liquidity_after := 55, tick_after := -1 }

/-- Collaborator instance for the unchecked-bookkeeping run: the step
reports an amount-out of 2^255 + 5, a U256 value whose top bit is set
(the section-6 swap-step contract places no bound on the reported
amounts). -/
def envC4 : Env :=
  { min_sqrt_ratio := 10, max_sqrt_ratio := 1000000, min_tick := -1000, max_tick := 1000,
    next_tick_in_word := fun _ _ _ => .ok (0, true),
    get_sqrt_ratio_at_tick := fun t => .ok ((80 + t).toNat),
    get_tick_at_sqrt_ratio := fun p => .ok ((p : Int) - 80),
    compute_swap_step := fun _ target _ _ _ => .ok (target, 1, 2 ^ 255 + 5, 0),
    add_delta := add_delta_spec }

/-- Arguments of the unchecked-bookkeeping run: sell direction, exact
input 1, one step to tick 0's price. -/
def argsC4 : SwapIn :=
  { ticks := fun t => if t = 0 then some tick_zero_net else none,
    tick_spacing := 1, zero_for_one := true, amount_specified := 1,
    sqrt_price_limit := 50,
    slot0 := { sqrt_price := 100, liquidity := 44, tick := 0 }, fee := 0 }

/-- Result of the unchecked-bookkeeping run: `amount1_delta` ended up
at +2^255 - 5 after "subtracting" the step's amount-out of 2^255 + 5
from zero — the unsigned value was silently reinterpreted as negative,
with no error. -/
def resC4 : SwapResult :=
  { amount0_delta := 1, amount1_delta := (2 ^ 255 : Int) - 5, sqrt_price_after := 80,
    liquidity_after := 44, tick_after := -1 }

/-- Collaborator instance for the missing-tick abort: the word search
reports an initialized tick 3, the step lands exactly on its price. -/
def envC9 : Env :=
  { min_sqrt_ratio := 10, max_sqrt_ratio := 1000000, min_tick := -1000, max_tick := 1000,
    next_tick_in_word := fun _ _ _ => .ok (3, true),
    get_sqrt_ratio_at_tick := fun _ => .ok 100,
    get_tick_at_sqrt_ratio := fun _ => .ok 0,
    compute_swap_step := fun _ _ _ _ _ => .ok (100, 1, 0, 0),
    add_delta := add_delta_spec }

/-- Arguments of the missing-tick abort run: the tick map is empty, so
the crossing's map lookup fails. -/
def argsC9 : SwapIn :=
  { ticks := fun _ => none,
    tick_spacing := 1, zero_for_one := true, amount_specified := 10,
    sqrt_price_limit := 50,
    slot0 := { sqrt_price := 90, liquidity := 5, tick := 0 }, fee := 0 }

/-- Transient state of the missing-tick run at the moment the crossing
begins. -/
def sC9upd : SwapState :=
  { amount_specified_remaining := 9, amount_calculated := 0, sqrt_price_x96 := 100,
    tick := 0, liquidity := 5 }

/-- A tick entry whose net liquidity is the minimum i128 value
-2^127 (src/tick.rs line 7: `liquidity_net` is `i128`). -/
def tick_min_net : Tick :=
  { liquidity_gross := 1, liquidity_net := -((I128_HALF : Nat) : Int),
    fee_growth_outside_0_x_128 := 0, fee_growth_outside_1_x_128 := 0,
    tick_cumulative_outside := 0, seconds_per_liquidity_outside_x_128 := 0,
    seconds_outside := 0, init_flag := true }

/-- Collaborator instance for the i128 negation overflow, parameterized
by an arbitrary liquidity-delta collaborator to show the latter is
never consulted. -/
def envC10 (ad : Nat → Int → Except UErr Nat) : Env :=
  { min_sqrt_ratio := 10, max_sqrt_ratio := 1000000, min_tick := -1000, max_tick := 1000,
    next_tick_in_word := fun _ _ _ => .ok (0, true),
    get_sqrt_ratio_at_tick := fun t => .ok ((100 + t).toNat),
    get_tick_at_sqrt_ratio := fun p => .ok ((p : Int) - 100),
    compute_swap_step := fun cur target _ rem _ =>
      if cur = target then .ok (cur, 0, 0, 0) else .ok (target, rem.toNat, 0, 0),
    add_delta := ad }

/-- Arguments of the i128 negation overflow run: a sell swap that lands
on (in fact starts at) the price of the initialized tick 0, whose
`liquidity_net` is -2^127. -/
def argsC10 : SwapIn :=
  { ticks := fun t => if t = 0 then some tick_min_net else none,
    tick_spacing := 1, zero_for_one := true, amount_specified := 7,
    sqrt_price_limit := 50,
    slot0 := { sqrt_price := 100, liquidity := 9, tick := 0 }, fee := 0 }

end UniswapV3

namespace UniswapV3

/-- Helper: the running-total update records the step's new price. -/
theorem update_amounts_price (ei : Bool) (s : SwapState) (np ain aout fa : Nat)
    (s2 : SwapState) (h : update_amounts ei s np ain aout fa = .ok s2) :
    s2.sqrt_price_x96 = np := by
  unfold update_amounts at h
  repeat' split at h
  all_goals first
    | (injection h with h2; subst h2; rfl)
    | simp at h

/-- Helper: what a successful result assembly says about every field of
the returned `SwapResult`. -/
theorem swap_assemble_fields (a : SwapIn) (ei : Bool) (s : SwapState) (r : SwapResult)
    (h : swap_assemble a ei s = .ok r) :
    r.sqrt_price_after = s.sqrt_price_x96 ∧ r.liquidity_after = s.liquidity ∧
    r.tick_after = s.tick ∧
    (if a.zero_for_one = ei then
       i256_sub a.amount_specified s.amount_specified_remaining = .ok r.amount0_delta ∧
       r.amount1_delta = s.amount_calculated
     else
       r.amount0_delta = s.amount_calculated ∧
       i256_sub a.amount_specified s.amount_specified_remaining = .ok r.amount1_delta) := by
  unfold swap_assemble at h
  by_cases hz : a.zero_for_one = ei
  · rw [if_pos hz] at h
    cases hs : i256_sub a.amount_specified s.amount_specified_remaining with
    | ok a0 =>
        rw [hs] at h
        injection h with h2
        subst h2
        rw [if_pos hz]
        exact ⟨rfl, rfl, rfl, rfl, rfl⟩
    | err e => rw [hs] at h; simp at h
    | panic => rw [hs] at h; simp at h
  · rw [if_neg hz] at h
    cases hs : i256_sub a.amount_specified s.amount_specified_remaining with
    | ok a1 =>
        rw [hs] at h
        injection h with h2
        subst h2
        rw [if_neg hz]
        exact ⟨rfl, rfl, rfl, rfl, rfl⟩
    | err e => rw [hs] at h; simp at h
    | panic => rw [hs] at h; simp at h

/-- Helper: a final state out of `swap_core` comes out of the loop run
on the initial state — the precondition branches never produce one. -/
theorem swap_core_ok (env : Env) (a : SwapIn) (fuel : Nat) (s2 : SwapState)
    (h : swap_core env a fuel = some (.ok s2)) :
    swap_loop env a (decide (0 < a.amount_specified)) fuel (swap_init_state a) =
      some (.ok s2) := by
  unfold swap_core at h
  split at h
  · simp at h
  split at h
  · simp at h
  split at h
  · split at h
    · simp at h
    · exact h
  · split at h
    · simp at h
    · exact h

/-- Helper: whenever the loop returns a final state, the `while`
condition has just failed on it — the remaining amount is zero or the
price sits on the limit. -/
theorem swap_loop_exit (env : Env) (a : SwapIn) (ei : Bool) :
    ∀ (fuel : Nat) (s s2 : SwapState), swap_loop env a ei fuel s = some (.ok s2) →
      s2.amount_specified_remaining = 0 ∨ s2.sqrt_price_x96 = a.sqrt_price_limit := by
  intro fuel
  induction fuel with
  | zero => intro s s2 h; simp [swap_loop] at h
  | succ n ih =>
      intro s s2 h
      simp only [swap_loop] at h
      by_cases hc : s.amount_specified_remaining ≠ 0 ∧ s.sqrt_price_x96 ≠ a.sqrt_price_limit
      · rw [if_pos hc] at h
        cases hb : swap_body env a ei s with
        | ok s3 => rw [hb] at h; exact ih s3 s2 h
        | err e => rw [hb] at h; simp at h
        | panic => rw [hb] at h; simp at h
      · rw [if_neg hc] at h
        have h2 : s = s2 := by simpa using h
        subst h2
        rcases not_and_or.mp hc with h3 | h3
        · exact Or.inl (not_not.mp h3)
        · exact Or.inr (not_not.mp h3)

/-- Helper: the tick handling of an iteration never moves the price. -/
theorem swap_cross_price (env : Env) (a : SwapIn) (inited : Bool) (tn : Int)
    (pn sp : Nat) (s2 s3 : SwapState) (h : swap_cross env a inited tn pn sp s2 = .ok s3) :
    s3.sqrt_price_x96 = s2.sqrt_price_x96 := by
  unfold swap_cross at h
  repeat' split at h
  all_goals first
    | (injection h with h2; subst h2; rfl)
    | simp at h

/-- Helper: the step target is bounded by any bound on both the limit
and the next tick's price. -/
theorem swap_target_le (a : SwapIn) (pn cap : Nat) (hl : a.sqrt_price_limit ≤ cap)
    (hp : pn ≤ cap) : swap_target a pn ≤ cap := by
  unfold swap_target
  repeat' split
  all_goals first | exact hl | exact hp

/-- Helper: one iteration keeps the price at or below a cap, given the
swap-step contract (the new price lies between the current and target
prices) and that the limit and every consulted tick price are at or
below the cap. -/
theorem swap_body_price_le (env : Env) (a : SwapIn) (ei : Bool) (cap : Nat)
    (hstep : ∀ cur tgt l rem fee np ain aout fa,
      env.compute_swap_step cur tgt l rem fee = .ok (np, ain, aout, fa) →
      min cur tgt ≤ np ∧ np ≤ max cur tgt)
    (htick : ∀ tn0 inited, env.next_tick_in_word a.slot0.tick a.tick_spacing a.zero_for_one
        = .ok (tn0, inited) →
      ∀ pn, env.get_sqrt_ratio_at_tick (clamp_tick env tn0) = .ok pn → pn ≤ cap)
    (hlim : a.sqrt_price_limit ≤ cap) :
    ∀ s s2, s.sqrt_price_x96 ≤ cap → swap_body env a ei s = .ok s2 →
      s2.sqrt_price_x96 ≤ cap := by
  intro s s2 hs hb
  unfold swap_body at hb
  split at hb
  · simp at hb
  · rename_i tn0 inited hnext
    split at hb
    · simp at hb
    · rename_i pn hp
      split at hb
      · simp at hb
      · rename_i np ain aout fa hcs
        split at hb
        · simp at hb
        · simp at hb
        · rename_i s3 hup
          have hnp : s3.sqrt_price_x96 = np := update_amounts_price ei s np ain aout fa s3 hup
          have hqn : pn ≤ cap := htick tn0 inited hnext pn hp
          have hbd := hstep _ _ _ _ _ _ _ _ _ hcs
          have htg : swap_target a pn ≤ cap := swap_target_le a pn cap hlim hqn
          have hcap : np ≤ cap := le_trans hbd.2 (max_le hs htg)
          have h9 : s2.sqrt_price_x96 = s3.sqrt_price_x96 :=
            swap_cross_price env a inited (clamp_tick env tn0) pn s.sqrt_price_x96 s3 s2 hb
          rw [h9, hnp]
          exact hcap

/-- Helper: one iteration keeps the price at or above a cap, the mirror
of the previous lemma for the buying direction. -/
theorem swap_body_price_ge (env : Env) (a : SwapIn) (ei : Bool) (cap : Nat)
    (hstep : ∀ cur tgt l rem fee np ain aout fa,
      env.compute_swap_step cur tgt l rem fee = .ok (np, ain, aout, fa) →
      min cur tgt ≤ np ∧ np ≤ max cur tgt)
    (htick : ∀ tn0 inited, env.next_tick_in_word a.slot0.tick a.tick_spacing a.zero_for_one
        = .ok (tn0, inited) →
      ∀ pn, env.get_sqrt_ratio_at_tick (clamp_tick env tn0) = .ok pn → cap ≤ pn)
    (hlim : cap ≤ a.sqrt_price_limit) :
    ∀ s s2, cap ≤ s.sqrt_price_x96 → swap_body env a ei s = .ok s2 →
      cap ≤ s2.sqrt_price_x96 := by
  intro s s2 hs hb
  unfold swap_body at hb
  split at hb
  · simp at hb
  · rename_i tn0 inited hnext
    split at hb
    · simp at hb
    · rename_i pn hp
      split at hb
      · simp at hb
      · rename_i np ain aout fa hcs
        split at hb
        · simp at hb
        · simp at hb
        · rename_i s3 hup
          have hnp : s3.sqrt_price_x96 = np := update_amounts_price ei s np ain aout fa s3 hup
          have hqn : cap ≤ pn := htick tn0 inited hnext pn hp
          have hbd := hstep _ _ _ _ _ _ _ _ _ hcs
          have htg : cap ≤ swap_target a pn := by
            unfold swap_target
            repeat' split
            all_goals first | exact hlim | exact hqn
          have hcap : cap ≤ np := le_trans (le_min hs htg) hbd.1
          have h9 : s2.sqrt_price_x96 = s3.sqrt_price_x96 :=
            swap_cross_price env a inited (clamp_tick env tn0) pn s.sqrt_price_x96 s3 s2 hb
          rw [h9, hnp]
          exact hcap

/-- Helper: the loop keeps the price at or below a cap, by induction on
the fuel from the per-iteration bound. -/
theorem swap_loop_price_le (env : Env) (a : SwapIn) (ei : Bool) (cap : Nat)
    (hstep : ∀ cur tgt l rem fee np ain aout fa,
      env.compute_swap_step cur tgt l rem fee = .ok (np, ain, aout, fa) →
      min cur tgt ≤ np ∧ np ≤ max cur tgt)
    (htick : ∀ tn0 inited, env.next_tick_in_word a.slot0.tick a.tick_spacing a.zero_for_one
        = .ok (tn0, inited) →
      ∀ pn, env.get_sqrt_ratio_at_tick (clamp_tick env tn0) = .ok pn → pn ≤ cap)
    (hlim : a.sqrt_price_limit ≤ cap) :
    ∀ fuel s s2, s.sqrt_price_x96 ≤ cap → swap_loop env a ei fuel s = some (.ok s2) →
      s2.sqrt_price_x96 ≤ cap := by
  intro fuel
  induction fuel with
  | zero => intro s s2 hs h; simp [swap_loop] at h
  | succ n ih =>
      intro s s2 hs h
      simp only [swap_loop] at h
      by_cases hc : s.amount_specified_remaining ≠ 0 ∧ s.sqrt_price_x96 ≠ a.sqrt_price_limit
      · rw [if_pos hc] at h
        cases hb : swap_body env a ei s with
        | ok s3 =>
            rw [hb] at h
            exact ih s3 s2 (swap_body_price_le env a ei cap hstep htick hlim s s3 hs hb) h
        | err e => rw [hb] at h; simp at h
        | panic => rw [hb] at h; simp at h
      · rw [if_neg hc] at h
        have h2 : s = s2 := by simpa using h
        rw [← h2]
        exact hs

/-- Helper: the loop keeps the price at or above a cap, the mirror of
the previous lemma. -/
theorem swap_loop_price_ge (env : Env) (a : SwapIn) (ei : Bool) (cap : Nat)
    (hstep : ∀ cur tgt l rem fee np ain aout fa,
      env.compute_swap_step cur tgt l rem fee = .ok (np, ain, aout, fa) →
      min cur tgt ≤ np ∧ np ≤ max cur tgt)
    (htick : ∀ tn0 inited, env.next_tick_in_word a.slot0.tick a.tick_spacing a.zero_for_one
        = .ok (tn0, inited) →
      ∀ pn, env.get_sqrt_ratio_at_tick (clamp_tick env tn0) = .ok pn → cap ≤ pn)
    (hlim : cap ≤ a.sqrt_price_limit) :
    ∀ fuel s s2, cap ≤ s.sqrt_price_x96 → swap_loop env a ei fuel s = some (.ok s2) →
      cap ≤ s2.sqrt_price_x96 := by
  intro fuel
  induction fuel with
  | zero => intro s s2 hs h; simp [swap_loop] at h
  | succ n ih =>
      intro s s2 hs h
      simp only [swap_loop] at h
      by_cases hc : s.amount_specified_remaining ≠ 0 ∧ s.sqrt_price_x96 ≠ a.sqrt_price_limit
      · rw [if_pos hc] at h
        cases hb : swap_body env a ei s with
        | ok s3 =>
            rw [hb] at h
            exact ih s3 s2 (swap_body_price_ge env a ei cap hstep htick hlim s s3 hs hb) h
        | err e => rw [hb] at h; simp at h
        | panic => rw [hb] at h; simp at h
      · rw [if_neg hc] at h
        have h2 : s = s2 := by simpa using h
        rw [← h2]
        exact hs

end UniswapV3

namespace UniswapV3

/-- C1: the code queries the bitmap from the stale `slot0.tick` instead
of the loop's current tick.  On the concrete run `envC1` / `argsC1`, the
first iteration advances the loop's tick to 10, yet the next iteration
of the source's `swap_body` behaves exactly as if still at slot0's tick
0 (it re-reports tick 10 — not strictly beyond the position reached —
and reproduces the same state), while the spec-prescribed iteration
`swap_body_fixed`, searching from the current tick 10, advances to tick
20.  This refutes the claim that the search starts from the updated
`SwapState.tick`. -/
theorem swap_bitmap_query_stale :
    swap_body envC1 argsC1 true (swap_init_state argsC1) = .ok sC1b ∧
    sC1b.tick = 10 ∧ argsC1.slot0.tick = 0 ∧
    swap_body envC1 argsC1 true sC1b = .ok sC1b ∧
    swap_body_fixed envC1 argsC1 true sC1b = .ok sC1c ∧
    sC1c.tick = 20 ∧ sC1b.sqrt_price_x96 = 1010 ∧ sC1c.sqrt_price_x96 = 1020 :=
  ⟨rfl, rfl, rfl, rfl, rfl, rfl, rfl, rfl⟩

/-- C2: the swap loop does not terminate on every accepted input.  On
the concrete run `envC2` / `argsC2` — which passes all four precondition
checks, with collaborators behaving as the real ones do (a degenerate
step at the target produces zero amounts, the word search from the
stale slot0 tick keeps reporting the same initialized tick) — the loop
reaches a state that reproduces itself forever, so the fuel-indexed
`swap` returns out-of-fuel for every bound. -/
theorem swap_nonterminating_input : ∀ fuel, swap envC2 argsC2 fuel = none := by
  have hb1 : swap_body envC2 argsC2 true (swap_init_state argsC2) = .ok sC2b := rfl
  have hb2 : swap_body envC2 argsC2 true sC2b = .ok sC2b := rfl
  have hfix : ∀ fuel, swap_loop envC2 argsC2 true fuel sC2b = none := by
    intro fuel
    induction fuel with
    | zero => rfl
    | succ n ih =>
        simp only [swap_loop]
        rw [if_pos (by decide), hb2]
        exact ih
  have hcore : ∀ fuel, swap_core envC2 argsC2 fuel = none := by
    intro fuel
    cases fuel with
    | zero => rfl
    | succ n =>
        show swap_loop envC2 argsC2 true (n + 1) (swap_init_state argsC2) = none
        simp only [swap_loop]
        rw [if_pos (by decide), hb1]
        exact hfix n
  intro fuel
  simp [swap, hcore fuel]

/-- C3: the four precondition checks of src/swap.rs lines 58-72 are
exhaustive and exclusive: a limit at or below the global minimum yields
`SplM`; otherwise a limit at or above the global maximum yields `SpuM`;
otherwise, selling asset 0 with the limit not strictly below the
current price yields `SplC`, and selling asset 1 with the limit not
strictly above it yields `SpuC`; the four error values are pairwise
distinct; and when no check fires, `swap_core` is exactly the loop run
from the initial state.  The error conclusions hold for every
collaborator environment and every fuel, so no loop iteration or other
computation is involved. -/
theorem swap_precondition_errors (env : Env) (a : SwapIn) (fuel : Nat) :
    (a.sqrt_price_limit ≤ env.min_sqrt_ratio → swap env a fuel = some (.err .SplM)) ∧
    (env.min_sqrt_ratio < a.sqrt_price_limit → env.max_sqrt_ratio ≤ a.sqrt_price_limit →
      swap env a fuel = some (.err .SpuM)) ∧
    (env.min_sqrt_ratio < a.sqrt_price_limit → a.sqrt_price_limit < env.max_sqrt_ratio →
      a.zero_for_one = true → a.slot0.sqrt_price ≤ a.sqrt_price_limit →
      swap env a fuel = some (.err .SplC)) ∧
    (env.min_sqrt_ratio < a.sqrt_price_limit → a.sqrt_price_limit < env.max_sqrt_ratio →
      a.zero_for_one = false → a.sqrt_price_limit ≤ a.slot0.sqrt_price →
      swap env a fuel = some (.err .SpuC)) ∧
    (env.min_sqrt_ratio < a.sqrt_price_limit → a.sqrt_price_limit < env.max_sqrt_ratio →
      (a.zero_for_one = true → a.sqrt_price_limit < a.slot0.sqrt_price) →
      (a.zero_for_one = false → a.slot0.sqrt_price < a.sqrt_price_limit) →
      swap_core env a fuel =
        swap_loop env a (decide (0 < a.amount_specified)) fuel (swap_init_state a)) ∧
    ((UErr.SplM ≠ UErr.SpuM ∧ UErr.SplM ≠ UErr.SplC ∧ UErr.SplM ≠ UErr.SpuC) ∧
     (UErr.SpuM ≠ UErr.SplC ∧ UErr.SpuM ≠ UErr.SpuC ∧ UErr.SplC ≠ UErr.SpuC)) := by
  refine ⟨?_, ?_, ?_, ?_, ?_, by decide⟩
  · intro h1
    have hc : swap_core env a fuel = some (.err .SplM) := by
      unfold swap_core
      rw [if_pos h1]
    simp [swap, hc]
  · intro h1 h2
    have hc : swap_core env a fuel = some (.err .SpuM) := by
      unfold swap_core
      rw [if_neg (by omega), if_pos h2]
    simp [swap, hc]
  · intro h1 h2 hz h3
    have hc : swap_core env a fuel = some (.err .SplC) := by
      unfold swap_core
      rw [if_neg (by omega), if_neg (by omega), if_pos hz, if_pos h3]
    simp [swap, hc]
  · intro h1 h2 hz h3
    have hc : swap_core env a fuel = some (.err .SpuC) := by
      unfold swap_core
      rw [if_neg (by omega), if_neg (by omega), if_neg (by simp [hz]), if_pos h3]
    simp [swap, hc]
  · intro h1 h2 h3 h4
    unfold swap_core
    rw [if_neg (by omega), if_neg (by omega)]
    cases hz : a.zero_for_one
    · rw [if_neg (by simp), if_neg (by have := h4 hz; omega)]
    · rw [if_pos rfl, if_neg (by have := h3 hz; omega)]

/-- Witness for C3: each of the four violations, at a concrete
environment and concrete argument variants, produces its distinct
error with zero fuel. -/
theorem swap_precondition_errors_witness :
    swap envW argsV1 0 = some (.err .SplM) ∧ swap envW argsV2 0 = some (.err .SpuM) ∧
    swap envW argsV3 0 = some (.err .SplC) ∧ swap envW argsV4 0 = some (.err .SpuC) :=
  ⟨(swap_precondition_errors envW argsV1 0).1 (by decide),
   (swap_precondition_errors envW argsV2 0).2.1 (by decide) (by decide),
   (swap_precondition_errors envW argsV3 0).2.2.1 (by decide) (by decide) rfl (by decide),
   (swap_precondition_errors envW argsV4 0).2.2.2.1 (by decide) (by decide) rfl (by decide)⟩

set_option maxRecDepth 8000 in
/-- C4: the loop bookkeeping is not checked overflow-erroring
arithmetic: on the concrete run `envC4` / `argsC4`, an exact-input swap
whose step reports the unsigned amount-out 2^255 + 5 finishes `Ok`,
with `amount_calculated` (surfaced in `amount1_delta`) having moved UP
to +2^255 - 5: `I256::from_raw` silently reinterpreted the out-of-range
unsigned value as negative, so "subtracting" it added, and no error or
abort was raised anywhere. -/
theorem swap_bookkeeping_reinterprets :
    swap envC4 argsC4 2 = some (.ok resC4) ∧
    i256_from_raw (2 ^ 255 + 5) = -((2 ^ 255 : Int) - 5) ∧
    resC4.amount1_delta = (2 ^ 255 : Int) - 5 ∧ 0 < resC4.amount1_delta := by
  refine ⟨by rfl, by norm_num [i256_from_raw, I256_HALF, U256_SIZE], rfl, by norm_num [resC4]⟩

/-- C5: an initialized tick can contribute its `liquidityNet` more than
once in one swap.  On the concrete run `envC2` / `argsC5` — accepted by
the preconditions, with the single initialized tick 10 carrying net
liquidity 5 — the first two loop iterations both cross tick 10, taking
the liquidity from 1000 to 1005 and then to 1010, because the bitmap is
re-queried from the stale slot0 tick.  The final conjunct places these
two iterations at the start of the actual swap loop. -/
theorem swap_recrosses_initialized_tick :
    swap_body envC2 argsC5 true (swap_init_state argsC5) = .ok sC5b ∧
    swap_body envC2 argsC5 true sC5b = .ok sC5c ∧
    (swap_init_state argsC5).liquidity = 1000 ∧ sC5b.liquidity = 1005 ∧
    sC5c.liquidity = 1010 ∧ sC5b.tick = 10 ∧ sC5c.tick = 10 ∧
    argsC5.ticks 10 = some tick_net_five ∧ tick_net_five.liquidity_net = 5 ∧
    (∀ fuel, swap_loop envC2 argsC5 true (fuel + 2) (swap_init_state argsC5) =
      swap_loop envC2 argsC5 true fuel sC5c) := by
  have hb1 : swap_body envC2 argsC5 true (swap_init_state argsC5) = .ok sC5b := rfl
  have hb2 : swap_body envC2 argsC5 true sC5b = .ok sC5c := rfl
  refine ⟨rfl, rfl, rfl, rfl, rfl, rfl, rfl, rfl, rfl, ?_⟩
  have h1 : ∀ n, swap_loop envC2 argsC5 true (n + 1) (swap_init_state argsC5) =
      swap_loop envC2 argsC5 true n sC5b := by
    intro n
    simp only [swap_loop]
    rw [if_pos (by decide), hb1]
  have h2 : ∀ n, swap_loop envC2 argsC5 true (n + 1) sC5b =
      swap_loop envC2 argsC5 true n sC5c := by
    intro n
    simp only [swap_loop]
    rw [if_pos (by decide), hb2]
  intro fuel
  exact (h1 (fuel + 1)).trans (h2 fuel)

/-- C6: whenever `swap` returns an `Ok` result, the loop's final state
satisfies at least one exit condition — the remaining amount is zero or
the final price (which the result reports as `sqrt_price_after`) equals
the limit.  Holds for every collaborator environment. -/
theorem swap_ok_exit_condition (env : Env) (a : SwapIn) (fuel : Nat) (res : SwapResult)
    (s2 : SwapState) (hswap : swap env a fuel = some (.ok res))
    (hcore : swap_core env a fuel = some (.ok s2)) :
    res.sqrt_price_after = s2.sqrt_price_x96 ∧
      (s2.amount_specified_remaining = 0 ∨ s2.sqrt_price_x96 = a.sqrt_price_limit) := by
  have h4 : swap_assemble a (decide (0 < a.amount_specified)) s2 = .ok res := by
    simp only [swap, hcore, Option.some.injEq] at hswap
    exact hswap
  exact ⟨(swap_assemble_fields a (decide (0 < a.amount_specified)) s2 res h4).1,
    swap_loop_exit env a (decide (0 < a.amount_specified)) fuel (swap_init_state a) s2
      (swap_core_ok env a fuel s2 hcore)⟩

/-- Witness for C6: the terminating run `envW` / `argsW` returns `Ok`
with final state `sW`, whose remaining amount is zero. -/
theorem swap_ok_exit_condition_witness :
    resW.sqrt_price_after = sW.sqrt_price_x96 ∧
      (sW.amount_specified_remaining = 0 ∨ sW.sqrt_price_x96 = argsW.sqrt_price_limit) :=
  swap_ok_exit_condition envW argsW 2 resW sW rfl rfl

/-- C7: the output deltas of every `Ok` result are assembled by
direction and mode: when `zero_for_one` equals the exact-input flag
(the positivity of `amount_specified`), `amount0_delta` is the
specified amount minus the final remaining amount and `amount1_delta`
is the final calculated amount; otherwise the two roles swap. -/
theorem swap_result_assembly (env : Env) (a : SwapIn) (fuel : Nat) (res : SwapResult)
    (s2 : SwapState) (hswap : swap env a fuel = some (.ok res))
    (hcore : swap_core env a fuel = some (.ok s2)) :
    (if a.zero_for_one = decide (0 < a.amount_specified) then
       i256_sub a.amount_specified s2.amount_specified_remaining = .ok res.amount0_delta ∧
       res.amount1_delta = s2.amount_calculated
     else
       res.amount0_delta = s2.amount_calculated ∧
       i256_sub a.amount_specified s2.amount_specified_remaining = .ok res.amount1_delta) := by
  have h4 : swap_assemble a (decide (0 < a.amount_specified)) s2 = .ok res := by
    simp only [swap, hcore, Option.some.injEq] at hswap
    exact hswap
  exact (swap_assemble_fields a (decide (0 < a.amount_specified)) s2 res h4).2.2.2

/-- Witness for C7: the terminating run `envW` / `argsW` assembles its
deltas as the sell / exact-input case prescribes. -/
theorem swap_result_assembly_witness :
    (if argsW.zero_for_one = decide (0 < argsW.amount_specified) then
       i256_sub argsW.amount_specified sW.amount_specified_remaining = .ok resW.amount0_delta ∧
       resW.amount1_delta = sW.amount_calculated
     else
       resW.amount0_delta = sW.amount_calculated ∧
       i256_sub argsW.amount_specified sW.amount_specified_remaining = .ok resW.amount1_delta) :=
  swap_result_assembly envW argsW 2 resW sW rfl rfl

end UniswapV3

namespace UniswapV3

/-- Counterexample to C8 as stated: a sell (`zero_for_one = true`) swap
that returns `Ok` with a final price strictly above the starting price.
The collaborators `envC8` respect the section-6 contracts — the
less-than-or-equal word search from slot0's recorded tick 0 returns
tick 0 itself, the conversions are monotone, the step is bounded
between current and target prices — but `argsC8.slot0` records tick 0
(price 1000) together with price 100, an inconsistency the engine never
checks, so the first step's target lies above the current price. -/
theorem swap_price_monotone_cex :
    swap envC8 argsC8 2 = some (.ok resC8) ∧ argsC8.zero_for_one = true ∧
    argsC8.slot0.sqrt_price < resC8.sqrt_price_after :=
  ⟨rfl, rfl, by decide⟩

/-- C8 (amended): for every `Ok` result, under the section-6 swap-step
contract (the step's new price lies between the current and target
prices) and the additional hypothesis that the price of the (clamped)
tick reported by the bitmap search from slot0's tick lies on the swap's
side of `slot0.sqrt_price` — which holds in particular whenever
`slot0.tick` is consistent with `slot0.sqrt_price` — the final price is
monotone in the swap direction: at most the starting price when selling
asset 0, at least the starting price otherwise. -/
theorem swap_price_monotone (env : Env) (a : SwapIn) (fuel : Nat) (res : SwapResult)
    (hstep : ∀ cur tgt l rem fee np ain aout fa,
      env.compute_swap_step cur tgt l rem fee = .ok (np, ain, aout, fa) →
      min cur tgt ≤ np ∧ np ≤ max cur tgt)
    (htick : ∀ tn0 inited, env.next_tick_in_word a.slot0.tick a.tick_spacing a.zero_for_one
        = .ok (tn0, inited) →
      ∀ pn, env.get_sqrt_ratio_at_tick (clamp_tick env tn0) = .ok pn →
        (if a.zero_for_one = true then pn ≤ a.slot0.sqrt_price
         else a.slot0.sqrt_price ≤ pn))
    (h : swap env a fuel = some (.ok res)) :
    (if a.zero_for_one = true then res.sqrt_price_after ≤ a.slot0.sqrt_price
     else a.slot0.sqrt_price ≤ res.sqrt_price_after) := by
  cases hcv : swap_core env a fuel with
  | none => simp [swap, hcv] at h
  | some r =>
    cases r with
    | panic => simp [swap, hcv] at h
    | err e => simp [swap, hcv] at h
    | ok s2 =>
      have hloop := swap_core_ok env a fuel s2 hcv
      have h4 : swap_assemble a (decide (0 < a.amount_specified)) s2 = .ok res := by
        simp only [swap, hcv, Option.some.injEq] at h
        exact h
      have hpr : res.sqrt_price_after = s2.sqrt_price_x96 :=
        (swap_assemble_fields a (decide (0 < a.amount_specified)) s2 res h4).1
      unfold swap_core at hcv
      split at hcv
      · simp at hcv
      split at hcv
      · simp at hcv
      split at hcv
      · rename_i hz
        split at hcv
        · simp at hcv
        · rename_i hnl
          rw [if_pos hz, hpr]
          refine swap_loop_price_le env a (decide (0 < a.amount_specified))
            a.slot0.sqrt_price hstep ?_ (by omega) fuel (swap_init_state a) s2
            (le_refl a.slot0.sqrt_price) hloop
          intro tn0 inited hn pn hp2
          have h5 := htick tn0 inited hn pn hp2
          rw [if_pos hz] at h5
          exact h5
      · rename_i hz
        split at hcv
        · simp at hcv
        · rename_i hnl
          have hz2 : ¬(a.zero_for_one = true) := by simp [hz]
          rw [if_neg hz2, hpr]
          refine swap_loop_price_ge env a (decide (0 < a.amount_specified))
            a.slot0.sqrt_price hstep ?_ (by omega) fuel (swap_init_state a) s2
            (le_refl a.slot0.sqrt_price) hloop
          intro tn0 inited hn pn hp2
          have h5 := htick tn0 inited hn pn hp2
          rw [if_neg hz2] at h5
          exact h5

/-- Witness for the amended C8: the terminating sell run `envW` /
`argsW` satisfies both contract hypotheses and its final price 996 is
at most the starting price 1500. -/
theorem swap_price_monotone_witness :
    (if argsW.zero_for_one = true then resW.sqrt_price_after ≤ argsW.slot0.sqrt_price
     else argsW.slot0.sqrt_price ≤ resW.sqrt_price_after) := by
  refine swap_price_monotone envW argsW 2 resW ?_ ?_ rfl
  · intro cur tgt l rem fee np ain aout fa h
    injection h with h2
    injection h2 with h3 h4
    subst h3
    exact ⟨min_le_right cur tgt, le_max_right cur tgt⟩
  · intro tn0 inited hn pn hp2
    injection hn with hn2
    injection hn2 with hn3 hn4
    subst hn3
    injection hp2 with hp3
    subst hp3
    decide

/-- C9: when the word search reported an initialized tick, the step
lands exactly on that tick's price, and the bookkeeping succeeds, but
the tick map has no entry for the (clamped) tick, the iteration aborts
(the `unwrap` of src/swap.rs line 135 panics): the outcome is
`SRes.panic`, a process abort distinct from every typed `Result::Err`
value, for every collaborator environment. -/
theorem swap_missing_tick_aborts (env : Env) (a : SwapIn) (ei : Bool) (s : SwapState)
    (tn0 : Int) (pn ain aout fa : Nat) (s2 : SwapState)
    (hnext : env.next_tick_in_word a.slot0.tick a.tick_spacing a.zero_for_one
      = .ok (tn0, true))
    (hp : env.get_sqrt_ratio_at_tick (clamp_tick env tn0) = .ok pn)
    (hstep : env.compute_swap_step s.sqrt_price_x96 (swap_target a pn) s.liquidity
        s.amount_specified_remaining a.fee = .ok (pn, ain, aout, fa))
    (hup : update_amounts ei s pn ain aout fa = .ok s2)
    (hmiss : a.ticks (clamp_tick env tn0) = none) :
    swap_body env a ei s = SRes.panic := by
  have hq : s2.sqrt_price_x96 = pn := update_amounts_price ei s pn ain aout fa s2 hup
  simp only [swap_body, hnext, hp, hstep, hup, swap_cross, hq, hmiss, if_pos, if_true]

/-- Witness for C9: the concrete iteration `envC9` / `argsC9`, whose
tick map is empty, aborts at the crossing of the reported tick 3. -/
theorem swap_missing_tick_aborts_witness :
    swap_body envC9 argsC9 true (swap_init_state argsC9) = SRes.panic :=
  swap_missing_tick_aborts envC9 argsC9 true (swap_init_state argsC9) 3 100 1 0 0 sC9upd
    rfl rfl rfl rfl rfl

/-- C10: an input on which `swap` neither returns a value nor a typed
error: on `argsC10` the crossed initialized tick 0 carries
`liquidity_net = -2^127` (the minimum i128 value) and the direction is
sell, so `-1 * l_net` overflows i128 and the run aborts with
`SRes.panic` — for EVERY liquidity-delta collaborator `ad`, which shows
`add_delta` is never consulted and its overflow error is never
surfaced. -/
theorem swap_i128_min_negation_aborts :
    ∀ (ad : Nat → Int → Except UErr Nat) (fuel : Nat),
      argsC10.ticks 0 = some tick_min_net ∧
      tick_min_net.liquidity_net = -((2 ^ 127 : Nat) : Int) ∧
      i128_neg_one_mul tick_min_net.liquidity_net = SRes.panic ∧
      swap (envC10 ad) argsC10 (fuel + 1) = some SRes.panic :=
  fun _ _ => ⟨rfl, rfl, rfl, rfl⟩

end UniswapV3
